import Mathlib

/-!
Shallow embedding of the Universal AI Agent Simulator
(`python-autonomous-agent.py`, the console variant, and `app.py`, the
Streamlit UI variant) together with proofs of the specification claims.

Modelling conventions:
* Python numbers (floats and ints flowing through the arithmetic) are
  modelled as rationals `ℚ`; Python's `int(.)` conversion, which truncates
  toward zero, is `pyInt`.
* Python's `random` module is modelled as an infinite stream of draws
  `g : Nat → Nat`; `random.choice(xs)` reads one draw and indexes the list
  modulo its length, `random.randint(lo, hi)` reads one draw and maps it
  into `[lo, hi]`.  Call sites consume draws at fixed stream positions in
  the source's evaluation order.
* Methods that mutate `self.decision_log` are modelled by explicit state
  passing over an `Agent` record.
-/

/-- Python's `int(x)` applied to a number: truncation toward zero
(`Int.tdiv` is truncating division, and a rational's denominator is
positive). -/
def pyInt (q : ℚ) : ℤ := q.num.tdiv q.den

/-- `random.randint(lo, hi)` fed with one raw draw `x`: a value in `[lo, hi]`
(modelled by wrapping the draw modulo the size of the range). -/
def pyRandint (lo hi : ℤ) (x : Nat) : ℤ := lo + (x % (hi - lo + 1).toNat : Nat)

/-- `random.choice(xs)` fed with one raw draw `x`: `xs` indexed modulo its
length (`d` is the value for the empty list, unreachable at all call sites). -/
def pyChoice (xs : List α) (d : α) (x : Nat) : α := xs.getD (x % xs.length) d

/-- An entry of the static resource tables
(`ResourceAPI.get_available_resources`). -/
structure Resource where
  id : String
  capacity : ℤ
  status : String
  location : String
deriving DecidableEq, Repr

/-- `ResourceAPI.get_available_resources`: the static resource table keyed by
the resource-type tag. -/
def get_available_resources (resource_type : String) : List Resource :=
  if resource_type = "drone" then
    [⟨"RESOURCE-001", 95, "available", "Base-A"⟩,
     ⟨"RESOURCE-002", 45, "available", "Base-A"⟩,
     ⟨"RESOURCE-003", 85, "charging", "Base-B"⟩,
     ⟨"RESOURCE-004", 100, "available", "Base-A"⟩]
  else if resource_type = "vehicle" then
    [⟨"VEHICLE-001", 80, "available", "Warehouse-1"⟩,
     ⟨"VEHICLE-002", 60, "available", "Warehouse-2"⟩,
     ⟨"VEHICLE-003", 90, "available", "Warehouse-1"⟩]
  else
    [⟨"UNIT-001", 75, "available", "Station-A"⟩,
     ⟨"UNIT-002", 95, "available", "Station-B"⟩]

/-- The filter inside `select_optimal_resource`:
`[r for r in resources if r["status"] == "available" and r["capacity"] >= min_capacity]`. -/
def availableResources (resource_type : String) (min_capacity : ℤ) : List Resource :=
  (get_available_resources resource_type).filter
    (fun r => r.status == "available" && decide (min_capacity ≤ r.capacity))

/-- Python's `max(best :: rest, key=lambda x: x["capacity"])`: the fold keeps
the current best and replaces it only on a strictly larger key, so the first
maximum encountered wins. -/
def maxByCapacity : Resource → List Resource → Resource
  | best, [] => best
  | best, r :: rs => maxByCapacity (if best.capacity < r.capacity then r else best) rs

/-- The value computed by `UniversalPlanningAgent.select_optimal_resource`
(its `decision_log` side effect is modelled separately in the orchestrator):
filter to available resources of sufficient capacity, return `None` when none
survive, otherwise the highest-capacity survivor. -/
def select_optimal_resource (resource_type : String) (min_capacity : ℤ) :
    Option Resource :=
  match availableResources resource_type min_capacity with
  | [] => none
  | r :: rs => some (maxByCapacity r rs)

/-- The complexity multiplier `complexity_map.get(complexity, 1.3)` in
`calculate_resource_requirement`. -/
def complexityMultiplier (complexity : String) : ℚ :=
  if complexity = "low" then 1.0
  else if complexity = "medium" then 1.3
  else if complexity = "high" then 1.6
  else 1.3

/-- `UniversalPlanningAgent.calculate_resource_requirement`: base requirement
from distance (else duration, else the fixed default 30), times the complexity
multiplier, times the 1.2 safety margin, converted with `int(.)`. -/
def calculate_resource_requirement (distance : ℚ) (complexity : String)
    (duration : ℚ) : ℤ :=
  let multiplier := complexityMultiplier complexity
  let base_requirement : ℚ :=
    if 0 < distance then distance * 1.5
    else if 0 < duration then duration * 0.8
    else 30
  pyInt (base_requirement * multiplier * 1.2)

/-- The category-specific `details` dictionaries built by
`EnvironmentAPI.check_conditions`; one constructor per condition category,
with the source's field names. -/
inductive ConditionDetails where
  | weather (condition : String) (wind_speed : ℤ) (visibility : ℤ)
  | traffic (traffic_level : String) (estimated_delay_min : ℤ) (road_status : String)
  | facility (machine_status : String) (temperature : ℤ) (power_status : String)
deriving DecidableEq

/-- A conditions dictionary as returned by `EnvironmentAPI.check_conditions`:
the keys `type`, `safe` and `details`. -/
structure Conditions where
  type : String
  safe : Bool
  details : ConditionDetails
deriving DecidableEq

/-- `EnvironmentAPI.check_conditions`: the Python code builds the whole
`conditions_map` dictionary eagerly (consuming nine random draws,
`g 0` .. `g 8`, in source order) and then returns
`conditions_map.get(task_type, conditions_map["drone_mission"])` — so any
task type other than the three keys falls back to the drone weather entry. -/
def check_conditions (location task_type : String) (g : Nat → Nat) : Conditions :=
  let drone_mission : Conditions :=
    { type := "weather",
      safe := pyChoice [true, true, true, false] true (g 0),
      details := .weather (pyChoice ["Clear", "Cloudy", "Windy"] "Clear" (g 1))
        (pyRandint 5 35 (g 2)) (pyRandint 5 15 (g 3)) }
  let delivery_route : Conditions :=
    { type := "traffic",
      safe := pyChoice [true, true, false] true (g 4),
      details := .traffic (pyChoice ["Low", "Moderate", "Heavy"] "Low" (g 5))
        (pyRandint 0 45 (g 6)) (pyChoice ["Clear", "Construction"] "Clear" (g 7)) }
  let production_job : Conditions :=
    { type := "facility",
      safe := true,
      details := .facility "Operational" (pyRandint 20 25 (g 8)) "Stable" }
  if task_type = "drone_mission" then drone_mission
  else if task_type = "delivery_route" then delivery_route
  else if task_type = "production_job" then production_job
  else drone_mission

/-- `UniversalPlanningAgent.check_environment_safety`: wraps
`check_conditions` into a `(safe, reason)` pair.  The source branches on
`conditions['type']`; here the branch is read off the `details` constructor,
which `check_conditions` keeps in bijection with the `type` string. -/
def check_environment_safety (location task_type : String) (g : Nat → Nat) :
    Bool × String :=
  let conditions := check_conditions location task_type g
  if conditions.safe then
    (true, "Conditions favorable for task execution")
  else
    match conditions.details with
    | .weather _ wind_speed _ =>
        (false, "Unsafe weather: Wind " ++ toString wind_speed ++ " km/h")
    | .traffic _ estimated_delay_min _ =>
        (false, "Heavy traffic: " ++ toString estimated_delay_min ++ " min delay")
    | .facility machine_status temperature power_status =>
        (false, "Conditions not favorable: \x7b'machine_status': '" ++
          machine_status ++ "', 'temperature': " ++ toString temperature ++
          ", 'power_status': '" ++ power_status ++ "'\x7d")

/-- One element of the `steps` list built by `plan_execution_path`. -/
structure PlanStep where
  step : Nat
  action : String
  estimated_time_min : ℤ
deriving DecidableEq

/-- The plan dictionary returned by `plan_execution_path` (`end` is a Lean
keyword, so the `"end"` key is rendered `end_`). -/
structure Plan where
  start : String
  end_ : String
  total_steps : Nat
  estimated_duration_min : ℤ
  steps : List PlanStep
  contingency_plan : String
deriving DecidableEq

/-- `UniversalPlanningAgent.plan_execution_path`: `random.randint(3, 7)`
steps (draw `g 0`), each with a pseudo-random duration
`random.randint(5, 20)` (draws `g 1`, `g 2`, ...), total duration summed
over the generated steps. -/
def plan_execution_path (start_location end_location : Option String)
    (g : Nat → Nat) : Plan :=
  let start := start_location.getD "Base"
  let end_ := end_location.getD "Target"
  let num_steps : Nat := (pyRandint 3 7 (g 0)).toNat
  let steps : List PlanStep := (List.range num_steps).map fun i =>
    { step := i + 1,
      action := "Execute phase " ++ toString (i + 1),
      estimated_time_min := pyRandint 5 20 (g (i + 1)) }
  let total_time := (steps.map (fun s => s.estimated_time_min)).sum
  { start := start, end_ := end_, total_steps := num_steps,
    estimated_duration_min := total_time, steps := steps,
    contingency_plan := "Return to base if issues arise" }

/-- A `decision_log` entry (`log_decision`).  The wall-clock `timestamp`
field is dropped: it is `datetime.now()`, outside the embedding. -/
structure LogEntry where
  step : String
  decision : String
  reasoning : String
deriving DecidableEq

/-- The mutable state of a `UniversalPlanningAgent` instance. -/
structure Agent where
  industry : String
  decision_log : List LogEntry
deriving DecidableEq

/-- `UniversalPlanningAgent.__init__`: a fresh agent with an empty
decision log. -/
def agent_init (industry : String) : Agent :=
  { industry := industry, decision_log := [] }

/-- `UniversalPlanningAgent.log_decision`: append one entry to
`self.decision_log`. -/
def log_decision (a : Agent) (step decision reasoning : String) : Agent :=
  { a with decision_log :=
      a.decision_log ++ [{ step := step, decision := decision, reasoning := reasoning }] }

/-- `select_optimal_resource` as the source runs it: the pure selection
plus its `log_decision` side effect on the agent. -/
def select_optimal_resource_step (a : Agent) (resource_type : String)
    (min_capacity : ℤ) : Option Resource × Agent :=
  match select_optimal_resource resource_type min_capacity with
  | none =>
      (none, log_decision a "Resource Selection" "FAILED"
        ("No " ++ resource_type ++ " available with capacity >= " ++
          toString min_capacity ++ "%"))
  | some best_resource =>
      (some best_resource, log_decision a "Resource Selection"
        ("Selected " ++ best_resource.id)
        ("Capacity: " ++ toString best_resource.capacity ++ "%, Status: " ++
          best_resource.status))

/-- The two dictionary shapes returned by `make_autonomous_decision`:
a rejection (`task_approved: False` plus a reason) or an approval with the
assigned resource and execution plan.  Both carry the decision log. -/
inductive Decision where
  | rejected (reason : String) (decision_log : List LogEntry)
  | approved (resource_assigned : String) (resource_capacity : String)
      (execution_plan : Plan) (conditions_status : String)
      (estimated_completion : String) (decision_log : List LogEntry)
deriving DecidableEq

/-- The `task_approved` flag of a returned decision. -/
def Decision.task_approved : Decision → Bool
  | .rejected _ _ => false
  | .approved _ _ _ _ _ _ => true

/-- The `decision_log` carried by a returned decision. -/
def Decision.decision_log : Decision → List LogEntry
  | .rejected _ l => l
  | .approved _ _ _ _ _ l => l

/-- The task-request dictionary: every key the source reads via
`task_request.get(...)`, as optional fields (absent key = `none`). -/
structure TaskRequest where
  task_type : Option String := none
  resource_type : Option String := none
  location : Option String := none
  distance : Option ℚ := none
  complexity : Option String := none
  duration : Option ℚ := none
  start_location : Option String := none
  end_location : Option String := none

/-- `UniversalPlanningAgent.make_autonomous_decision`, with the agent state
threaded explicitly.  The environment check consumes the first nine random
draws, so `plan_execution_path` (reached only on the approved path) reads
the stream shifted by nine. -/
def make_autonomous_decision (a : Agent) (task_request : TaskRequest)
    (g : Nat → Nat) : Decision × Agent :=
  let task_type := task_request.task_type.getD "drone_mission"
  let resource_type := task_request.resource_type.getD "drone"
  let sr := check_environment_safety (task_request.location.getD "Unknown") task_type g
  if sr.1 = false then
    let a := log_decision a "Environment Analysis" "TASK REJECTED" sr.2
    (.rejected sr.2 a.decision_log, a)
  else
    let a := log_decision a "Environment Analysis" "CONDITIONS APPROVED" sr.2
    let distance := task_request.distance.getD 0
    let complexity := task_request.complexity.getD "medium"
    let duration := task_request.duration.getD 0
    let required_capacity := calculate_resource_requirement distance complexity duration
    let a := log_decision a "Requirement Analysis"
      ("Required Capacity: " ++ toString required_capacity ++ "%")
      ("Distance: " ++ toString distance ++ ", Complexity: " ++ complexity)
    let sel := select_optimal_resource_step a resource_type required_capacity
    let a := sel.2
    match sel.1 with
    | none =>
        (.rejected ("No " ++ resource_type ++ " available with required capacity (" ++
          toString required_capacity ++ "%)") a.decision_log, a)
    | some selected_resource =>
        let execution_plan := plan_execution_path task_request.start_location
          task_request.end_location (fun i => g (9 + i))
        let a := log_decision a "Final Decision" "TASK APPROVED"
          ("All checks passed. " ++ selected_resource.id ++ " ready for deployment.")
        (.approved selected_resource.id
          (toString selected_resource.capacity ++ "% (required: " ++
            toString required_capacity ++ "%)")
          execution_plan sr.2
          (toString execution_plan.estimated_duration_min ++ " minutes")
          a.decision_log, a)

/-- The complexity factor of the UI variant (`app.py`):
`{"Low":1.0,"Medium":1.3,"High":1.6}[complexity.split()[0]]`, applied to the
first word of the selectbox choice; the selectbox offers exactly the three
keys, so the final branch (a `KeyError` in Python) is unreachable. -/
def ui_complexity_factor (first_word : String) : ℚ :=
  if first_word = "Low" then 1.0
  else if first_word = "Medium" then 1.3
  else if first_word = "High" then 1.6
  else 0

/-- The UI variant's resource load: `total = distance * 1.5 * complexity_factor`
(`app.py`, step 2).  Note: no 1.2 factor appears, although the adjacent log
entry claims "Added safety margin 20%". -/
def ui_total (distance : ℚ) (first_word : String) : ℚ :=
  distance * 1.5 * ui_complexity_factor first_word

/-! Helper lemmas. -/

lemma log_decision_log (a : Agent) (s d r : String) :
    (log_decision a s d r).decision_log =
      a.decision_log ++ [{ step := s, decision := d, reasoning := r }] := rfl

lemma maxByCapacity_ge (rs : List Resource) :
    ∀ best : Resource, best.capacity ≤ (maxByCapacity best rs).capacity := by
  induction rs with
  | nil => intro best; exact le_refl _
  | cons r t ih =>
    intro best
    simp only [maxByCapacity]
    by_cases h : best.capacity < r.capacity
    · rw [if_pos h]; exact le_trans (le_of_lt h) (ih r)
    · rw [if_neg h]; exact ih best

/-- Python's `max(best :: rs, key=capacity)` returns the first element of
maximal capacity: everything before it in the list is strictly smaller, and
nothing in the list is larger. -/
lemma maxByCapacity_firstMax (rs : List Resource) :
    ∀ best : Resource,
      ∃ pre post, best :: rs = pre ++ maxByCapacity best rs :: post ∧
        (∀ x ∈ pre, x.capacity < (maxByCapacity best rs).capacity) ∧
        (∀ x ∈ best :: rs, x.capacity ≤ (maxByCapacity best rs).capacity) := by
  induction rs with
  | nil =>
    intro best
    exact ⟨[], [], rfl, by simp, by simp [maxByCapacity]⟩
  | cons r t ih =>
    intro best
    simp only [maxByCapacity]
    by_cases h : best.capacity < r.capacity
    · rw [if_pos h]
      obtain ⟨pre, post, heq, hpre, hall⟩ := ih r
      refine ⟨best :: pre, post, ?_, ?_, ?_⟩
      · rw [List.cons_append, ← heq]
      · intro x hx
        rcases List.mem_cons.mp hx with hx | hx
        · rw [hx]
          exact lt_of_lt_of_le h (maxByCapacity_ge t r)
        · exact hpre x hx
      · intro x hx
        rcases List.mem_cons.mp hx with hx | hx
        · rw [hx]
          exact le_of_lt (lt_of_lt_of_le h (maxByCapacity_ge t r))
        · exact hall x hx
    · rw [if_neg h]
      have hrb : r.capacity ≤ best.capacity := le_of_not_lt h
      obtain ⟨pre, post, heq, hpre, hall⟩ := ih best
      cases pre with
      | nil =>
        have hm : maxByCapacity best t = best := by
          have := congrArg (fun l => l.head?) heq
          simpa using this.symm
        refine ⟨[], r :: t, ?_, by simp, ?_⟩
        · simp [hm]
        · intro x hx
          rcases List.mem_cons.mp hx with hx | hx
          · rw [hx]; exact maxByCapacity_ge t best
          · rcases List.mem_cons.mp hx with hx | hx
            · rw [hx]; exact le_trans hrb (maxByCapacity_ge t best)
            · exact hall x (List.mem_cons_of_mem _ hx)
      | cons p pre' =>
        have hp : p = best := by
          have := congrArg (fun l => l.head?) heq
          simpa using this.symm
        have ht : t = pre' ++ maxByCapacity best t :: post := by
          have := congrArg (fun l => l.tail) heq
          simpa using this
        have hbestlt : best.capacity < (maxByCapacity best t).capacity := by
          have := hpre p (List.mem_cons_self _ _)
          rwa [hp] at this
        refine ⟨best :: r :: pre', post, ?_, ?_, ?_⟩
        · rw [show best :: r :: t = best :: r :: (pre' ++ maxByCapacity best t :: post) from by rw [← ht]]
          rfl
        · intro x hx
          rcases List.mem_cons.mp hx with hx | hx
          · rw [hx]; exact hbestlt
          · rcases List.mem_cons.mp hx with hx | hx
            · rw [hx]; exact lt_of_le_of_lt hrb hbestlt
            · exact hpre x (by rw [hp]; exact List.mem_cons_of_mem _ hx)
        · intro x hx
          rcases List.mem_cons.mp hx with hx | hx
          · rw [hx]; exact hall best (List.mem_cons_self _ _)
          · rcases List.mem_cons.mp hx with hx | hx
            · rw [hx]; exact le_trans hrb (hall best (List.mem_cons_self _ _))
            · exact hall x (List.mem_cons_of_mem _ hx)

/-- On nonnegative rationals, Python truncation agrees with the floor. -/
lemma pyInt_eq_floor (q : ℚ) (h : 0 ≤ q) : pyInt q = ⌊q⌋ := by
  rw [pyInt, Rat.floor_def]
  exact Int.tdiv_eq_ediv (Rat.num_nonneg.mpr h) (Int.natCast_nonneg _)

lemma pyInt_mono (a b : ℚ) (ha : 0 ≤ a) (hab : a ≤ b) : pyInt a ≤ pyInt b := by
  rw [pyInt_eq_floor a ha, pyInt_eq_floor b (le_trans ha hab)]
  exact Int.floor_le_floor hab

lemma complexityMultiplier_pos (c : String) : 0 < complexityMultiplier c := by
  rw [complexityMultiplier]
  split
  · norm_num
  · split
    · norm_num
    · split <;> norm_num

/-! Claim theorems. -/

/-- C1: for every distance, duration and complexity tier, the requirement
calculation returns the integer truncation of base × multiplier × 1.2, where
multiplier is 1.0 for "low", 1.3 for "medium", 1.6 for "high" (1.3 for any
other tier) and base is distance × 1.5 when distance > 0, else
duration × 0.8 when duration > 0, else 30; in particular
`calculate(distance=25, complexity="medium")` returns 58. -/
theorem calculate_requirement_matches_spec :
    (∀ (distance duration : ℚ) (complexity : String),
      calculate_resource_requirement distance complexity duration =
        pyInt ((if 0 < distance then distance * 1.5
                else if 0 < duration then duration * 0.8
                else 30) *
               (if complexity = "low" then 1.0
                else if complexity = "medium" then 1.3
                else if complexity = "high" then 1.6
                else 1.3) * 1.2)) ∧
    calculate_resource_requirement 25 "medium" 0 = 58 := by
  constructor
  · intro distance duration complexity
    rfl
  · norm_num +decide [calculate_resource_requirement, complexityMultiplier, pyInt]

/-- C2: for every resource-type tag and minimum capacity, resource selection
keeps exactly the available entries of sufficient capacity, returns the first
entry of maximum capacity among them, and returns `none` exactly when no
entry survives; with required=58 over the drone table it selects the
100-capacity entry. -/
theorem select_optimal_resource_spec :
    (∀ (resource_type : String) (min_capacity : ℤ),
      (∀ x, x ∈ availableResources resource_type min_capacity ↔
        x ∈ get_available_resources resource_type ∧
          x.status = "available" ∧ min_capacity ≤ x.capacity) ∧
      (select_optimal_resource resource_type min_capacity = none ↔
        availableResources resource_type min_capacity = []) ∧
      (∀ r, select_optimal_resource resource_type min_capacity = some r →
        ∃ pre post,
          availableResources resource_type min_capacity = pre ++ r :: post ∧
          (∀ x ∈ pre, x.capacity < r.capacity) ∧
          (∀ x ∈ availableResources resource_type min_capacity,
            x.capacity ≤ r.capacity))) ∧
    select_optimal_resource "drone" 58 =
      some ⟨"RESOURCE-004", 100, "available", "Base-A"⟩ := by
  constructor
  · intro resource_type min_capacity
    refine ⟨?_, ?_, ?_⟩
    · intro x
      simp [availableResources, List.mem_filter, and_assoc]
    · rw [select_optimal_resource]
      cases availableResources resource_type min_capacity <;> simp
    · intro r hr
      rw [select_optimal_resource] at hr
      rcases hl : availableResources resource_type min_capacity with _ | ⟨hd, tl⟩
      · rw [hl] at hr; exact absurd hr (by simp)
      · rw [hl] at hr
        simp only [Option.some.injEq] at hr
        obtain ⟨pre, post, heq, hpre, hall⟩ := maxByCapacity_firstMax tl hd
        exact ⟨pre, post, by rw [← hr, ← heq], by rw [← hr]; exact hpre,
          by rw [← hr]; exact hall⟩
  · decide

/-- C2 witness: the drone table filtered at threshold 101 is empty, obtained
from the none-iff-empty direction of the selection spec at a concrete input. -/
theorem select_optimal_resource_spec_witness :
    availableResources "drone" 101 = [] :=
  ((select_optimal_resource_spec.1 "drone" 101).2.1).mp (by decide)

/-- C9 counterexample: with required=96 over the drone table, selection does
not return the "none found" signal — the 100-capacity entry qualifies and is
selected. -/
theorem select_resource_96_counterexample :
    select_optimal_resource "drone" 96 =
      some ⟨"RESOURCE-004", 100, "available", "Base-A"⟩ ∧
    select_optimal_resource "drone" 96 ≠ none := by
  constructor <;> decide

/-- C9 amended: with required=96 over the drone table selection returns the
100-capacity entry RESOURCE-004; a threshold above 100 (e.g. 101) is needed
to produce the "none found" signal. -/
theorem select_resource_96_amended :
    select_optimal_resource "drone" 96 =
      some ⟨"RESOURCE-004", 100, "available", "Base-A"⟩ ∧
    select_optimal_resource "drone" 101 = none := by
  constructor <;> decide

/-- C3 (code bug): the UI variant's total load omits the 20% safety margin
even though its log entry says "Added safety margin 20%": at
distance=25, complexity "Medium - ..." it computes 25 × 1.5 × 1.3 = 48.75,
not the console variant's 25 × 1.5 × 1.3 × 1.2 (which truncates to 58). -/
theorem ui_total_omits_safety_margin :
    ui_total 25 "Medium" = 195 / 4 ∧
    ui_total 25 "Medium" ≠ 25 * 1.5 * 1.3 * 1.2 ∧
    calculate_resource_requirement 25 "medium" 0 = 58 ∧
    pyInt (ui_total 25 "Medium") ≠ calculate_resource_requirement 25 "medium" 0 := by
  refine ⟨?_, ?_, ?_, ?_⟩ <;>
    norm_num +decide [ui_total, ui_complexity_factor, pyInt,
      calculate_resource_requirement, complexityMultiplier]

/-- C4 counterexample: for the task type "maintenance_check" (neither the
drone-mission nor the delivery-route type) the environment check returns the
weather reading, not a facility-status reading. -/
theorem check_conditions_fallback_counterexample :
    (check_conditions "Site" "maintenance_check" (fun _ => 0)).type = "weather" ∧
    (check_conditions "Site" "maintenance_check" (fun _ => 0)).type ≠ "facility" := by
  constructor <;> decide

/-- C4 amended: only the task type "production_job" yields a facility-status
reading; every other task type that is neither the drone-mission type nor the
delivery-route type falls back to the drone weather reading. -/
theorem check_conditions_fallback :
    ∀ (location task_type : String) (g : Nat → Nat),
      task_type ≠ "drone_mission" → task_type ≠ "delivery_route" →
      (check_conditions location task_type g).type =
        (if task_type = "production_job" then "facility" else "weather") := by
  intro location task_type g h1 h2
  rw [check_conditions]
  simp only [if_neg h1, if_neg h2]
  by_cases h3 : task_type = "production_job"
  · simp [h3]
  · simp [h3]

/-- C4 witness: the amended fallback behaviour at the concrete task type
"maintenance_check". -/
theorem check_conditions_fallback_witness :
    (check_conditions "Site" "inspection_task" (fun _ => 1)).type =
      (if "inspection_task" = "production_job" then "facility" else "weather") :=
  check_conditions_fallback "Site" "inspection_task" (fun _ => 1)
    (by decide) (by decide)

/-- C6: for every complexity tier the computed required capacity is
monotonically increasing (non-decreasing) in the distance, for positive
distances, and for every fixed positive distance it is monotonically
increasing across the multiplier order low < medium < high. -/
theorem requirement_monotone :
    (∀ (complexity : String) (duration d1 d2 : ℚ), 0 < d1 → d1 ≤ d2 →
      calculate_resource_requirement d1 complexity duration ≤
        calculate_resource_requirement d2 complexity duration) ∧
    (∀ (duration d : ℚ), 0 < d →
      calculate_resource_requirement d "low" duration ≤
        calculate_resource_requirement d "medium" duration ∧
      calculate_resource_requirement d "medium" duration ≤
        calculate_resource_requirement d "high" duration) := by
  have hcalc : ∀ (d dur : ℚ) (c : String), 0 < d →
      calculate_resource_requirement d c dur =
        pyInt (d * 1.5 * complexityMultiplier c * 1.2) := by
    intro d dur c hd
    rw [calculate_resource_requirement]
    simp only [if_pos hd]
  constructor
  · intro c dur d1 d2 h1 h12
    rw [hcalc d1 dur c h1, hcalc d2 dur c (lt_of_lt_of_le h1 h12)]
    have hm := complexityMultiplier_pos c
    apply pyInt_mono
    · positivity
    · have h15 : d1 * 1.5 ≤ d2 * 1.5 := by linarith
      have hmul : d1 * 1.5 * complexityMultiplier c ≤
          d2 * 1.5 * complexityMultiplier c :=
        mul_le_mul_of_nonneg_right h15 (le_of_lt hm)
      linarith
  · intro dur d hd
    have hlow : complexityMultiplier "low" = 1.0 := rfl
    have hmed : complexityMultiplier "medium" = 1.3 := rfl
    have hhigh : complexityMultiplier "high" = 1.6 := rfl
    constructor
    · rw [hcalc d dur "low" hd, hcalc d dur "medium" hd, hlow, hmed]
      apply pyInt_mono
      · positivity
      · have h1 : d * 1.5 * 1.0 ≤ d * 1.5 * 1.3 := by nlinarith
        linarith
    · rw [hcalc d dur "medium" hd, hcalc d dur "high" hd, hmed, hhigh]
      apply pyInt_mono
      · positivity
      · have h1 : d * 1.5 * 1.3 ≤ d * 1.5 * 1.6 := by nlinarith
        linarith

/-- C6 witness: monotonicity instantiated at concrete distances 10 ≤ 20 and
at the three tiers for distance 10. -/
theorem requirement_monotone_witness :
    calculate_resource_requirement 10 "low" 0 ≤
      calculate_resource_requirement 20 "low" 0 ∧
    calculate_resource_requirement 10 "low" 0 ≤
      calculate_resource_requirement 10 "medium" 0 ∧
    calculate_resource_requirement 10 "medium" 0 ≤
      calculate_resource_requirement 10 "high" 0 :=
  ⟨requirement_monotone.1 "low" 0 10 20 (by norm_num) (by norm_num),
   (requirement_monotone.2 0 10 (by norm_num)).1,
   (requirement_monotone.2 0 10 (by norm_num)).2⟩

/-- C7: for every task-details input and every outcome of the random source,
the execution plan has between 3 and 7 steps, each step duration lies in
[5, 20] minutes, and the reported total duration is the sum of the per-step
durations. -/
theorem plan_execution_path_bounds :
    ∀ (start_location end_location : Option String) (g : Nat → Nat),
      3 ≤ (plan_execution_path start_location end_location g).total_steps ∧
      (plan_execution_path start_location end_location g).total_steps ≤ 7 ∧
      (plan_execution_path start_location end_location g).steps.length =
        (plan_execution_path start_location end_location g).total_steps ∧
      (∀ s ∈ (plan_execution_path start_location end_location g).steps,
        5 ≤ s.estimated_time_min ∧ s.estimated_time_min ≤ 20) ∧
      (plan_execution_path start_location end_location g).estimated_duration_min =
        ((plan_execution_path start_location end_location g).steps.map
          (fun s => s.estimated_time_min)).sum := by
  intro sl el g
  have htotal : (plan_execution_path sl el g).total_steps =
      (pyRandint 3 7 (g 0)).toNat := rfl
  have hsteps : (plan_execution_path sl el g).steps =
      (List.range (pyRandint 3 7 (g 0)).toNat).map fun i =>
        { step := i + 1,
          action := "Execute phase " ++ toString (i + 1),
          estimated_time_min := pyRandint 5 20 (g (i + 1)) } := rfl
  refine ⟨?_, ?_, ?_, ?_, rfl⟩
  · rw [htotal, pyRandint]
    have := Nat.mod_lt (g 0) (y := ((7:ℤ) - 3 + 1).toNat) (by norm_num)
    omega
  · rw [htotal, pyRandint]
    have := Nat.mod_lt (g 0) (y := ((7:ℤ) - 3 + 1).toNat) (by norm_num)
    omega
  · rw [htotal, hsteps]
    simp
  · intro s hs
    rw [hsteps] at hs
    simp only [List.mem_map, List.mem_range] at hs
    obtain ⟨i, _, rfl⟩ := hs
    simp only [pyRandint]
    have := Nat.mod_lt (g (i + 1)) (y := ((20:ℤ) - 5 + 1).toNat) (by norm_num)
    omega

/-- C7 witness: the bounds at a concrete input (the all-zero random stream
yields a 3-step plan whose first step is "Execute phase 1" with duration 5). -/
theorem plan_execution_path_bounds_witness :
    3 ≤ (plan_execution_path none none (fun _ => 0)).total_steps ∧
    5 ≤ ({ step := 1, action := "Execute phase 1", estimated_time_min := 5 } :
        PlanStep).estimated_time_min := by
  refine ⟨(plan_execution_path_bounds none none (fun _ => 0)).1, ?_⟩
  exact ((plan_execution_path_bounds none none (fun _ => 0)).2.2.2.1
    { step := 1, action := "Execute phase 1", estimated_time_min := 5 }
    (by decide)).1
/-- C5: for every task request whose environment check reports unsafe, the
evaluation of a fresh agent terminates immediately with a rejected decision
whose log contains exactly one entry — the environment-analysis rejection —
and no resource-selection or plan entry is produced. -/
theorem env_reject_single_log_entry :
    ∀ (industry : String) (req : TaskRequest) (g : Nat → Nat),
      (check_environment_safety (req.location.getD "Unknown")
        (req.task_type.getD "drone_mission") g).1 = false →
      (make_autonomous_decision (agent_init industry) req g).1.task_approved = false ∧
      (make_autonomous_decision (agent_init industry) req g).1.decision_log =
        (make_autonomous_decision (agent_init industry) req g).2.decision_log ∧
      (make_autonomous_decision (agent_init industry) req g).2.decision_log.length = 1 ∧
      ∀ e ∈ (make_autonomous_decision (agent_init industry) req g).2.decision_log,
        e.step = "Environment Analysis" := by
  intro industry req g h
  simp only [make_autonomous_decision, h, if_pos, reduceIte, log_decision,
    agent_init, Decision.task_approved, Decision.decision_log]
  simp
/-- C5 witness: the all-3 random stream makes the drone weather check unsafe,
and the resulting fresh-agent run logs exactly one entry. -/
theorem env_reject_single_log_entry_witness :
    (check_environment_safety "Unknown" "drone_mission" (fun _ => 3)).1 = false ∧
    (make_autonomous_decision (agent_init "drone_operations") {}
      (fun _ => 3)).2.decision_log.length = 1 :=
  ⟨by decide,
   (env_reject_single_log_entry "drone_operations" {} (fun _ => 3) (by decide)).2.2.1⟩

/-- C8 counterexample: running the same agent twice (both runs rejected at
the environment stage under the all-3 stream), the log returned by the
second call has two entries and starts with the entry produced by the first
run — it is not limited to the second run's entries. -/
theorem decision_log_persists_counterexample :
    (make_autonomous_decision
        (make_autonomous_decision (agent_init "demo") {} (fun _ => 3)).2
        {} (fun _ => 3)).1.decision_log.length = 2 ∧
    (make_autonomous_decision
        (make_autonomous_decision (agent_init "demo") {} (fun _ => 3)).2
        {} (fun _ => 3)).1.decision_log.take 1 =
      (make_autonomous_decision (agent_init "demo") {} (fun _ => 3)).1.decision_log := by
  constructor <;> decide

/-- C8 amended: the decision log belongs to the agent instance and
accumulates across calls: every run's returned log extends the agent's
previous log (so only a freshly constructed agent yields a per-run log). -/
theorem decision_log_accumulates :
    ∀ (a : Agent) (req : TaskRequest) (g : Nat → Nat),
      (make_autonomous_decision a req g).2.decision_log.take
          a.decision_log.length = a.decision_log ∧
      (make_autonomous_decision a req g).1.decision_log =
        (make_autonomous_decision a req g).2.decision_log ∧
      a.decision_log.length <
        (make_autonomous_decision a req g).2.decision_log.length := by
  intro a req g
  simp only [make_autonomous_decision]
  split
  · simp [log_decision, Decision.decision_log, List.take_left]
  · rcases hsel : select_optimal_resource (req.resource_type.getD "drone")
        (calculate_resource_requirement (req.distance.getD 0)
          (req.complexity.getD "medium") (req.duration.getD 0)) with _ | r <;>
      simp [select_optimal_resource_step, hsel, log_decision,
        Decision.decision_log, List.append_assoc, List.take_left]
/-- C10: for task type "production_job" the environment check is safe for
every outcome of the random source (the safety flag is the constant `True`),
so a production-job task is never rejected at the environment stage: the
first log entry of any run on such a request is the CONDITIONS APPROVED
entry, never TASK REJECTED. -/
theorem production_job_always_safe :
    (∀ (location : String) (g : Nat → Nat),
      (check_conditions location "production_job" g).safe = true ∧
      check_environment_safety location "production_job" g =
        (true, "Conditions favorable for task execution")) ∧
    (∀ (a : Agent) (req : TaskRequest) (g : Nat → Nat),
      req.task_type = some "production_job" →
      ((make_autonomous_decision a req g).2.decision_log.drop
          a.decision_log.length).head? =
        some { step := "Environment Analysis", decision := "CONDITIONS APPROVED",
               reasoning := "Conditions favorable for task execution" }) := by
  have hsafe : ∀ (location : String) (g : Nat → Nat),
      check_environment_safety location "production_job" g =
        (true, "Conditions favorable for task execution") := fun _ _ => rfl
  refine ⟨fun location g => ⟨rfl, hsafe location g⟩, ?_⟩
  intro a req g h
  simp only [make_autonomous_decision, h, Option.getD_some, hsafe,
    Bool.true_eq_false, if_false]
  rcases hsel : select_optimal_resource (req.resource_type.getD "drone")
      (calculate_resource_requirement (req.distance.getD 0)
        (req.complexity.getD "medium") (req.duration.getD 0)) with _ | r <;>
    simp [select_optimal_resource_step, hsel, log_decision,
      List.append_assoc, List.drop_left]

/-- C10 witness: the environment-approved first log entry on a concrete
production-job run. -/
theorem production_job_always_safe_witness :
    ((make_autonomous_decision (agent_init "manufacturing")
        { task_type := some "production_job" } (fun _ => 0)).2.decision_log.drop
      (agent_init "manufacturing").decision_log.length).head? =
      some { step := "Environment Analysis", decision := "CONDITIONS APPROVED",
             reasoning := "Conditions favorable for task execution" } :=
  production_job_always_safe.2 (agent_init "manufacturing")
    { task_type := some "production_job" } (fun _ => 0) rfl
